import Mathlib

/-!
Verification of the Skidmark roast-generator Lambda
(`src/backend/lambda/roast_generator.py`) against its natural-language
specification.  The Python module is shallowly embedded below: each
`_snake_case` helper of the source becomes a Lean function of the same
name (minus the leading underscore, which Lean reserves), Python dicts
with `.get` defaults become structures with `Option` fields and `getD`
at the use sites, and Python score floats — which only ever meet
one-decimal formatting — are modelled as integers counting tenths of a
point.  Python `str` identifiers are modelled by their `str()` form.
-/

namespace Roast

/-! ## Scores

Score values are modelled in tenths of a point: every score the code
formats goes through `f"{x:.1f}"`, so `110.5` is represented as `1105`.
-/

abbrev Score := Int

/-- Python `f"{x:.1f}"` applied to a tenths value (`fmt1 1105 = "110.5"`). -/
def fmt1 (s : Score) : String :=
  (if s < 0 then "-" else "")
    ++ toString (s.natAbs / 10) ++ "." ++ toString (s.natAbs % 10)

/-! ## Data model -/

/-- Entry of a team's `top_players` list.  The source interpolates all three
fields verbatim (`f"{p['name']} ({p['position']}, {p['points']} pts)"`),
so `points` is kept as its display string. -/
structure TopPlayer where
  name : String
  position : String
  points : String
deriving Repr, DecidableEq

/-- A team record.  `id` is the Python id in its `str()` form (the source
only ever interpolates it or passes it through `str`).  `name`, `owner`
and `record` are accessed with mandatory indexing `t["name"]` etc. in
`_build_prompt`, hence non-optional; `points_for`, `points_against` and
`streak` go through `.get(..., "?")` and are kept as display strings. -/
structure Team where
  id : String
  name : String
  owner : String
  record : String
  points_for : Option String
  points_against : Option String
  streak : Option String
  top_players : List TopPlayer
deriving Repr, DecidableEq

/-- One player line of a matchup side.  All four fields are read with
`.get` defaults (`"Unknown"`, `"??"`, `0`, `False`) in
`_format_matchups_section`, hence all optional here. -/
structure PlayerStat where
  name : Option String
  position : Option String
  points : Option Score
  is_starter : Option Bool
deriving Repr, DecidableEq

/-- A weekly matchup.  Ids are read via `str(m.get(..., ""))`; scores via
`m.get(..., 0)`. -/
structure Matchup where
  home_team_id : Option String
  away_team_id : Option String
  home_score : Option Score
  away_score : Option Score
  home_players : List PlayerStat
  away_players : List PlayerStat
deriving Repr, DecidableEq

/-- A playoff bracket entry.  `seed` and `current_round` are displayed
verbatim with default `"?"`, so they are kept as display strings; the
three flags are read with `.get(..., False)`. -/
structure BracketEntry where
  team_id : Option String
  seed : Option String
  current_round : Option String
  opponent_team_id : Option String
  is_eliminated : Option Bool
  is_consolation : Option Bool
  is_championship : Option Bool
deriving Repr, DecidableEq

/-- An inside joke from the league context (`{"term", "explanation"}`). -/
structure Joke where
  term : String
  explanation : String
deriving Repr, DecidableEq

/-- An owner personality from the league context. -/
structure Personality where
  player_name : String
  description : String
deriving Repr, DecidableEq

/-- The league context dict; every field is read with a `.get` default. -/
structure LeagueCtx where
  inside_jokes : List Joke
  personalities : List Personality
  sacko_punishment : Option String
  culture_notes : Option String
deriving Repr, DecidableEq

/-! ## Name resolution

Each formatter rebuilds `team_names = {str(t["id"]): t.get("name", ...)}`
and looks ids up with `team_names.get(tid, f"Team {tid}")`.  A Python dict
comprehension lets later entries overwrite earlier ones, so the lookup
finds the LAST team carrying the id; a missing id falls back to the
literal `"Team {tid}"`. -/

/-- Lookup in the `team_names` dict with the `f"Team {tid}"` fallback. -/
def team_name_of (all_teams : List Team) (tid : String) : String :=
  match all_teams.reverse.find? (fun t => t.id == tid) with
  | some t => t.name
  | none => "Team " ++ tid

/-- Lookup in the `team_names` dict with the `"Unknown"` fallback used by
`_build_playoff_roasting_approach`. -/
def team_name_or_unknown (all_teams : List Team) (tid : String) : String :=
  match all_teams.reverse.find? (fun t => t.id == tid) with
  | some t => t.name
  | none => "Unknown"

/-! ## `_format_matchups_section` -/

/-- `p.get("points", 0)`. -/
def stat_pts (p : PlayerStat) : Score := p.points.getD 0

/-- Python `max(l)` over a non-empty list keeps the running best and
replaces it only on a strictly greater element, so the result is the
value of the FIRST occurrence of the maximum.  `py_max b l` folds over
`l` with current best `b`. -/
def py_max : Score → List Score → Score
  | b, [] => b
  | b, x :: xs => py_max (if x > b then x else b) xs

/-- Python `min(l)`, analogously first-occurrence-of-minimum valued. -/
def py_min : Score → List Score → Score
  | b, [] => b
  | b, x :: xs => py_min (if x < b then x else b) xs

/-- Index of the first occurrence of `v` (total: length of the list when
absent, which never happens at the call sites below). -/
def first_idx (v : Score) : List Score → Nat
  | [] => 0
  | x :: xs => if x = v then 0 else first_idx v xs + 1

/-- Value of `max(starters, key=points)` over the starters' point list. -/
def top_val : List Score → Score
  | [] => 0
  | x :: xs => py_max x xs

/-- Value of `min(starters, key=points)` over the starters' point list. -/
def bust_val : List Score → Score
  | [] => 0
  | x :: xs => py_min x xs

/-- The marker appended to starter line `i`: the loop body checks
`p is top` first, `elif p is bust` second.  Python `max`/`min` return the
first element attaining the extreme key, and object identity singles out
exactly that list position (bracket entries decoded from JSON are
distinct objects), so the checks amount to comparing `i` with the first
index attaining the maximum resp. minimum. -/
def starter_marker (ptsList : List Score) (i : Nat) : String :=
  if i = first_idx (top_val ptsList) ptsList then " ⭐ TOP SCORER"
  else if i = first_idx (bust_val ptsList) ptsList then " 💩 BIGGEST BUST"
  else ""

/-- One starter stat line, marker included. -/
def starter_line (ptsList : List Score) (i : Nat) (p : PlayerStat) : String :=
  "    " ++ p.name.getD "Unknown" ++ " (" ++ p.position.getD "??" ++ "): "
    ++ fmt1 (stat_pts p) ++ " pts" ++ starter_marker ptsList i

/-- `[p for p in players if p.get("is_starter", False)]`. -/
def starters_of (players : List PlayerStat) : List PlayerStat :=
  players.filter (fun p => p.is_starter.getD false)

/-- The lines one side of a matchup contributes (team line, starter lines
or the no-data fallback, blank separator). -/
def side_lines (team_name : String) (score : Score) (result : String)
    (players : List PlayerStat) : List String :=
  let starters := starters_of players
  let ptsList := starters.map stat_pts
  ("  " ++ team_name ++ " -- " ++ fmt1 score ++ " pts (" ++ result ++ ")")
    :: (if starters.isEmpty then ["    No starter data available"]
        else starters.enum.map (fun ip => starter_line ptsList ip.1 ip.2))
    ++ [""]

/-- The (home, away) result labels: strict comparison of the two scores. -/
def matchup_results (hs as : Score) : String × String :=
  if hs > as then ("WIN", "LOSS")
  else if as > hs then ("LOSS", "WIN")
  else ("TIE", "TIE")

/-- The header line `"{home_name} ({home:.1f}) vs {away_name} ({away:.1f})"`. -/
def matchup_header (all_teams : List Team) (m : Matchup) : String :=
  team_name_of all_teams (m.home_team_id.getD "") ++ " (" ++ fmt1 (m.home_score.getD 0)
    ++ ") vs " ++ team_name_of all_teams (m.away_team_id.getD "")
    ++ " (" ++ fmt1 (m.away_score.getD 0) ++ ")"

/-- All lines one matchup contributes to the section. -/
def matchup_lines (all_teams : List Team) (m : Matchup) : List String :=
  let home_name := team_name_of all_teams (m.home_team_id.getD "")
  let away_name := team_name_of all_teams (m.away_team_id.getD "")
  let hs := m.home_score.getD 0
  let as_ := m.away_score.getD 0
  let res := matchup_results hs as_
  [matchup_header all_teams m, ""]
    ++ side_lines home_name hs res.1 m.home_players
    ++ side_lines away_name as_ res.2 m.away_players
    ++ ["---"]

/-- `f"WEEK {week_number}" if week_number else "THIS WEEK"` — Python
truthiness makes both `None` and `0` fall to `"THIS WEEK"`. -/
def week_label : Option Int → String
  | some n => if n = 0 then "THIS WEEK" else "WEEK " ++ toString n
  | none => "THIS WEEK"

/-- `_format_matchups_section`. -/
def format_matchups_section (matchups : List Matchup) (all_teams : List Team)
    (week_number : Option Int) : String :=
  if matchups.isEmpty then ""
  else
    String.intercalate "\n"
      (("=== " ++ week_label week_number ++ "\x27S MATCHUPS ===\n")
        :: matchups.flatMap (matchup_lines all_teams))

/-! ## `_format_playoff_bracket_section` -/

/-- `e.get("is_championship", False)`. -/
def is_champ (e : BracketEntry) : Bool := e.is_championship.getD false

/-- `e.get("is_consolation", False)`. -/
def is_consol (e : BracketEntry) : Bool := e.is_consolation.getD false

/-- `e.get("is_eliminated", False)`. -/
def is_elim (e : BracketEntry) : Bool := e.is_eliminated.getD false

/-- The championship group of the bracket section:
`[e for e in playoff_bracket if e.get("is_championship", False)]`. -/
def bracket_championship (b : List BracketEntry) : List BracketEntry :=
  b.filter is_champ

/-- The winners group: entries that are neither consolation nor championship. -/
def bracket_winners (b : List BracketEntry) : List BracketEntry :=
  b.filter (fun e => !is_consol e && !is_champ e)

/-- The consolation group:
`[e for e in playoff_bracket if e.get("is_consolation", False)]` — note the
filter does NOT exclude championship entries. -/
def bracket_consolation (b : List BracketEntry) : List BracketEntry :=
  b.filter is_consol

/-- Opponent resolution: `opp_id` falsy (empty) renders `"TBD"`, otherwise the
`team_names` lookup with the `"Team {id}"` fallback. -/
def opponent_name (all_teams : List Team) (e : BracketEntry) : String :=
  let opp_id := e.opponent_team_id.getD ""
  if opp_id = "" then "TBD" else team_name_of all_teams opp_id

/-- Championship group entry line. -/
def champ_entry_line (all_teams : List Team) (e : BracketEntry) : String :=
  "  #" ++ e.seed.getD "?" ++ " " ++ team_name_of all_teams (e.team_id.getD "")
    ++ " vs " ++ opponent_name all_teams e

/-- Winners group entry line, with round and elimination tag. -/
def winners_entry_line (all_teams : List Team) (e : BracketEntry) : String :=
  "  #" ++ e.seed.getD "?" ++ " " ++ team_name_of all_teams (e.team_id.getD "")
    ++ " (Round " ++ e.current_round.getD "?" ++ ") vs " ++ opponent_name all_teams e
    ++ (if is_elim e then " [ELIMINATED]" else "")

/-- Consolation group entry line, with elimination tag. -/
def consolation_entry_line (all_teams : List Team) (e : BracketEntry) : String :=
  "  #" ++ e.seed.getD "?" ++ " " ++ team_name_of all_teams (e.team_id.getD "")
    ++ (if is_elim e then " [ELIMINATED]" else "")

/-- `_format_playoff_bracket_section`. -/
def format_playoff_bracket_section (playoff_bracket : List BracketEntry)
    (all_teams : List Team) : String :=
  if playoff_bracket.isEmpty then ""
  else
    String.intercalate "\n"
      ("=== PLAYOFF BRACKET ===\n"
        :: ((if (bracket_championship playoff_bracket).isEmpty then []
             else "🏆 CHAMPIONSHIP MATCHUP:"
               :: (bracket_championship playoff_bracket).map (champ_entry_line all_teams)
               ++ [""])
          ++ (if (bracket_winners playoff_bracket).isEmpty then []
              else "WINNERS BRACKET:"
                :: (bracket_winners playoff_bracket).map (winners_entry_line all_teams)
                ++ [""])
          ++ (if (bracket_consolation playoff_bracket).isEmpty then []
              else "CONSOLATION BRACKET (the losers\x27 lounge):"
                :: (bracket_consolation playoff_bracket).map (consolation_entry_line all_teams)
                ++ [""])))

/-! ## `_build_playoff_roasting_approach` -/

/-- The `champ_teams` filter of the approach builder (same predicate as the
bracket section's championship group). -/
def approach_champ_teams (b : List BracketEntry) : List BracketEntry :=
  b.filter is_champ

/-- The `eliminated` filter — every entry with `is_eliminated`, independent of
the championship flag. -/
def approach_eliminated (b : List BracketEntry) : List BracketEntry :=
  b.filter is_elim

/-- The `consolation` filter — consolation entries not yet eliminated. -/
def approach_consolation (b : List BracketEntry) : List BracketEntry :=
  b.filter (fun e => is_consol e && !is_elim e)

/-- The `active` filter — entries with none of the three flags. -/
def approach_active (b : List BracketEntry) : List BracketEntry :=
  b.filter (fun e => !is_champ e && !is_elim e && !is_consol e)

/-- `", ".join(team_names.get(str(e.get("team_id", "")), "Unknown") ...)`. -/
def joined_names (all_teams : List Team) (es : List BracketEntry) : String :=
  String.intercalate ", "
    (es.map (fun e => team_name_or_unknown all_teams (e.team_id.getD "")))

/-- The CHAMPIONSHIP CONTENDERS sentence of the playoff approach. -/
def champ_sentence (b : List BracketEntry) (all_teams : List Team) : String :=
  "🏆 CHAMPIONSHIP CONTENDERS (" ++ joined_names all_teams (approach_champ_teams b)
    ++ "): These teams are playing for the title and their legacy. Roast them "
    ++ "like legends on trial -- acknowledge they made it this far, then question "
    ++ "whether they deserve it. Reference their seed, their bracket path, and "
    ++ "why their opponent might end their dream."

/-- The ELIMINATED sentence of the playoff approach. -/
def eliminated_sentence (b : List BracketEntry) (all_teams : List Team) : String :=
  "ELIMINATED (" ++ joined_names all_teams (approach_eliminated b)
    ++ "): Absolute destruction. Their season is OVER. "
    ++ "They are watching from the couch while others compete for glory. "
    ++ "Reference their seed, how far they fell, and the shame of early elimination."

/-- The ACTIVE BRACKET sentence (fixed copy). -/
def active_sentence : String :=
  "ACTIVE BRACKET: Still alive but one bad week from elimination. Mock their "
    ++ "playoff seed, their matchup, and the pressure of knowing it could all end. "
    ++ "Reference their opponent and what a loss would mean."

/-- The CONSOLATION BRACKET sentence (fixed copy). -/
def consolation_sentence : String :=
  "CONSOLATION BRACKET: Already out of title contention but still playing "
    ++ "meaningless games. Mock the futility of consolation playoff wins. "
    ++ "They are playing for pride that does not exist."

/-- The lines of `_build_playoff_roasting_approach`, before joining. -/
def playoff_approach_lines (b : List BracketEntry) (all_teams : List Team) :
    List String :=
  ["=== ROASTING APPROACH (PLAYOFF MODE) ===",
   "",
   "This is the PLAYOFFS. Every game is win-or-go-home. The stakes are real, "
     ++ "the pressure is crushing, and the roasts should match the intensity.",
   ""]
    ++ (if (approach_champ_teams b).isEmpty then []
        else [champ_sentence b all_teams, ""])
    ++ (if (approach_active b).isEmpty then [] else [active_sentence, ""])
    ++ (if (approach_consolation b).isEmpty then [] else [consolation_sentence, ""])
    ++ (if (approach_eliminated b).isEmpty then []
        else [eliminated_sentence b all_teams, ""])

/-- `_build_playoff_roasting_approach`. -/
def build_playoff_roasting_approach (b : List BracketEntry)
    (all_teams : List Team) : String :=
  String.intercalate "\n" (playoff_approach_lines b all_teams)

/-! ## `_build_prompt` -/

/-- One team's readable block. -/
def team_block (t : Team) : String :=
  let players := String.intercalate ", "
    (t.top_players.map (fun p => p.name ++ " (" ++ p.position ++ ", " ++ p.points ++ " pts)"))
  "- ID: " ++ t.id ++ " | \"" ++ t.name ++ "\" owned by " ++ t.owner ++ "\n"
    ++ "  Record: " ++ t.record ++ " | PF: " ++ t.points_for.getD "?" ++ " | "
    ++ "PA: " ++ t.points_against.getD "?" ++ " | Streak: " ++ t.streak.getD "?" ++ "\n"
    ++ "  Top players: " ++ (if players.isEmpty then "none listed" else players)

/-- The joined team blocks. -/
def teams_text (teams : List Team) : String :=
  String.intercalate "\n" (teams.map team_block)

/-- The inside-jokes block, `"None provided."` when the list is empty. -/
def jokes_text (ctx : LeagueCtx) : String :=
  if ctx.inside_jokes.isEmpty then "None provided."
  else String.intercalate "\n"
    (ctx.inside_jokes.map (fun j => "- \"" ++ j.term ++ "\": " ++ j.explanation))

/-- The personalities block, `"None provided."` when the list is empty. -/
def personalities_text (ctx : LeagueCtx) : String :=
  if ctx.personalities.isEmpty then "None provided."
  else String.intercalate "\n"
    (ctx.personalities.map (fun p => "- " ++ p.player_name ++ ": " ++ p.description))

/-- `ctx.get("sacko_punishment", "not specified")`. -/
def sacko_of (ctx : LeagueCtx) : String := ctx.sacko_punishment.getD "not specified"

/-- `ctx.get("culture_notes", "not specified")`. -/
def culture_of (ctx : LeagueCtx) : String := ctx.culture_notes.getD "not specified"

/-- `", ".join(f'"{tid}"' for tid in [t["id"] for t in teams])` — built from
the batch's OWN team list, not the full context list. -/
def id_list (teams : List Team) : String :=
  String.intercalate ", " (teams.map (fun t => "\"" ++ t.id ++ "\""))

/-- `top_cutoff = 3`. -/
def top_cutoff : Int := 3

/-- `mid_cutoff = min(7, total_teams - 1)` (Python ints, so `Int` here). -/
def mid_cutoff (total_teams : Int) : Int := min 7 (total_teams - 1)

/-- `bool(playoff_bracket)` for the optional bracket argument. -/
def bracket_nonempty : Option (List BracketEntry) → Bool
  | none => false
  | some l => !l.isEmpty

/-- `is_playoff_mode = season_phase == "playoffs" and bool(playoff_bracket)`. -/
def is_playoff_mode (season_phase : String)
    (playoff_bracket : Option (List BracketEntry)) : Bool :=
  season_phase == "playoffs" && bracket_nonempty playoff_bracket

/-- `resolve_teams = all_teams if all_teams else teams` — Python truthiness
sends both `None` and the empty list back to `teams`. -/
def resolve_teams_of (teams : List Team) : Option (List Team) → List Team
  | none => teams
  | some l => if l.isEmpty then teams else l

/-- The matchup-specific requirement lines, present iff matchups are. -/
def matchup_requirements (matchups : List Matchup) : String :=
  if matchups.isEmpty then ""
  else
    "- Reference specific player performances from this week\x27s matchups. "
      ++ "Call out breakout games and busts BY NAME.\n"
      ++ "- Mention at least one specific player performance per roast -- "
      ++ "use their actual point totals.\n"
      ++ "- Mock teams that lost despite having a high-scoring player on their roster. "
      ++ "Mock teams that won despite having a bust starter."

/-- The playoff-specific requirement lines (playoff mode only). -/
def playoff_requirements_text : String :=
  "- Reference each team\x27s playoff seed and bracket position.\n"
    ++ "- Emphasize elimination pressure -- every loss could be the last.\n"
    ++ "- Mock eliminated teams mercilessly and reference their consolation bracket exile.\n"
    ++ "- For head-to-head playoff matchups, reference what is at stake.\n"
    ++ "- Give championship matchup teams an elevated, legacy-defining roast treatment."

/-- The offseason-mode roasting approach text. -/
def offseason_approach (total_teams : Int) (sacko : String) : String :=
  "=== ROASTING APPROACH (OFFSEASON MODE) ===\n\n"
    ++ "The season is OVER. These are the final standings. Every win, every loss, "
    ++ "every embarrassing stat line is now permanently etched in league history. "
    ++ "There are no more chances to redeem a garbage season or prove the doubters wrong.\n\n"
    ++ "TOP TIER (ranks 1-" ++ toString top_cutoff ++ "): They won when it mattered. "
    ++ "But did they REALLY earn it, or did they get carried by one lucky draft pick? "
    ++ "Question their legacy. Were they actually good, or was everyone else just worse?\n\n"
    ++ "MIDDLE TIER (ranks " ++ toString (top_cutoff + 1) ++ "-"
    ++ toString (mid_cutoff total_teams) ++ "): The most forgettable teams in league "
    ++ "history. Not good enough to celebrate, not bad enough to be memorable. "
    ++ "They existed. That\x27s about it.\n\n"
    ++ "BOTTOM TIER (ranks " ++ toString (mid_cutoff total_teams + 1) ++ "+): Their "
    ++ "season was a disaster from start to finish. "
    ++ (if sacko ≠ "not specified" then
          "The sacko punishment (" ++ sacko
            ++ ") awaits -- describe their impending humiliation in vivid detail."
        else "They have nothing to show for an entire season of effort.")

/-- The regular-season roasting approach text (the default mode and the
fallback target of a bracketless playoffs phase). -/
def regular_approach (total_teams : Int) (sacko : String) : String :=
  "=== ROASTING APPROACH ===\n\n"
    ++ "TOP TIER (ranks 1-" ++ toString top_cutoff ++ "): Celebrate success with "
    ++ "backhanded compliments. Find the crack -- luck-carried records, boneheaded "
    ++ "decisions, fraudulent point differentials -- and stick your finger in it.\n\n"
    ++ "MIDDLE TIER (ranks " ++ toString (top_cutoff + 1) ++ "-"
    ++ toString (mid_cutoff total_teams) ++ "): These are the frauds and pretenders. "
    ++ "Mock their inconsistency and mediocrity ruthlessly. Not good enough to "
    ++ "celebrate, not bad enough to pity.\n\n"
    ++ "BOTTOM TIER (ranks " ++ toString (mid_cutoff total_teams + 1) ++ "+): Absolute "
    ++ "destruction. Reference their actual terrible stats. Mock delusional optimism. "
    ++ (if sacko ≠ "not specified" then
          "The sacko punishment (" ++ sacko ++ ") is looming -- remind them VIVIDLY."
        else "They are not tanking, they are just bad.")

/-- The mode-dependent triple `(roasting_approach, bracket_section,
playoff_requirements)` selected by `_build_prompt`'s three-way branch. -/
def mode_parts (total_teams : Int) (season_phase : String)
    (playoff_bracket : Option (List BracketEntry)) (resolve_teams : List Team)
    (sacko : String) : String × String × String :=
  if is_playoff_mode season_phase playoff_bracket then
    (build_playoff_roasting_approach (playoff_bracket.getD []) resolve_teams,
     format_playoff_bracket_section (playoff_bracket.getD []) resolve_teams,
     playoff_requirements_text)
  else if season_phase == "offseason" then
    (offseason_approach total_teams sacko, "", "")
  else
    (regular_approach total_teams sacko, "", "")

/-- `"\n".join(r for r in [matchup_requirements, playoff_requirements] if r)`. -/
def join_nonempty (rs : List String) : String :=
  String.intercalate "\n" (rs.filter (fun r => !r.isEmpty))

/-- Everything of the final f-string before `"Keys for this batch: "`. -/
def prompt_prefix (teams : List Team) (ctx : LeagueCtx) (total_teams : Int)
    (matchups : List Matchup) (week_number : Option Int) (season_phase : String)
    (playoff_bracket : Option (List BracketEntry)) (all_teams : Option (List Team)) :
    String :=
  let resolve := resolve_teams_of teams all_teams
  let matchups_section :=
    if matchups.isEmpty then ""
    else format_matchups_section matchups resolve week_number
  let parts := mode_parts total_teams season_phase playoff_bracket resolve (sacko_of ctx)
  "You are Skidmark -- the most vulgar, profane, brutally honest fantasy football "
    ++ "roast bot ever created. Swearing is your native language: \"fucking,\" "
    ++ "\"shit,\" \"ass,\" \"goddamn\" and creative compound insults flow in every "
    ++ "roast. You call out poor performances with zero sugarcoating. You are "
    ++ "roasting FRIENDS -- the goal is laughs so hard they screenshot it for the "
    ++ "group chat, not cruelty without comedic payoff.\n\n"
    ++ parts.1 ++ "\n\n"
    ++ matchups_section ++ parts.2.1 ++ "=== REQUIREMENTS ===\n\n"
    ++ "- Every stat, score, and record you reference MUST be exactly correct from "
    ++ "the data provided. Use real numbers to twist the knife.\n"
    ++ "- Weave inside jokes and personality descriptions naturally into roasts -- "
    ++ "these are GOLD. Generic insults are forgettable; personal references hit "
    ++ "different. Only include inside jokes if you are confident it will make sense "
    ++ "to the recipient and there is inside joke content loaded. \n"
    ++ "- Write exactly 3-5 punchy sentences per team. No filler, no warm-up intros. "
    ++ "Every sentence hits.\n"
    ++ "- Reference at least one actual statistic per roast.\n"
    ++ "- Use vivid metaphors, pop culture references, dark humor, and absurd comparisons.\n"
    ++ join_nonempty [matchup_requirements matchups, parts.2.2] ++ "\n\n"
    ++ "=== LEAGUE DATA ===\n\n"
    ++ "TEAMS (ranked by standing):\n" ++ teams_text teams ++ "\n\n"
    ++ "INSIDE JOKES:\n" ++ jokes_text ctx ++ "\n\n"
    ++ "OWNER PERSONALITIES:\n" ++ personalities_text ctx ++ "\n\n"
    ++ "SACKO PUNISHMENT: " ++ sacko_of ctx ++ "\n"
    ++ "LEAGUE CULTURE: " ++ culture_of ctx ++ "\n\n"
    ++ "=== OUTPUT FORMAT ===\n\n"
    ++ "Return ONLY valid JSON (no markdown, no code fences). Each key is the team "
    ++ "ID string, each value is the roast text (3-5 sentences).\n"

/-- The fixed tail of the prompt after the id list. -/
def prompt_suffix : String :=
  "\n\nExample: \x7b\"1\": \"roast text here\", \"2\": \"roast text here\"\x7d\n\n"
    ++ "Now channel your inner Skidmark. Be vulgar. Be brutal. Be statistically "
    ++ "accurate. Be fucking hilarious. Go."

/-- `_build_prompt` — the assembled Claude prompt. -/
def build_prompt (teams : List Team) (ctx : LeagueCtx) (total_teams : Int)
    (matchups : List Matchup) (week_number : Option Int) (season_phase : String)
    (playoff_bracket : Option (List BracketEntry)) (all_teams : Option (List Team)) :
    String :=
  prompt_prefix teams ctx total_teams matchups week_number season_phase
      playoff_bracket all_teams
    ++ "Keys for this batch: " ++ id_list teams ++ prompt_suffix

/-! ## `_generate_roasts_parallel` and `handler` -/

/-- `BATCH_SIZE = 2`. -/
def BATCH_SIZE : Nat := 2

/-- `[teams[i:i + BATCH_SIZE] for i in range(0, len(teams), BATCH_SIZE)]`. -/
def batches {α : Type} : List α → List (List α)
  | [] => []
  | x :: xs => (x :: xs.take (BATCH_SIZE - 1)) :: batches (xs.drop (BATCH_SIZE - 1))
termination_by l => l.length
decreasing_by simp [List.length_drop]; omega

/-- The prompts `_generate_roasts_parallel` sends to Bedrock, one per batch,
in batch order.  Both the single-batch branch and the thread-pool branch
build exactly these prompts: the batch is the roast set, `len(teams)` the
total count, and the FULL original list the `all_teams` resolution source.
The external Bedrock calls themselves are outside the embedding. -/
def generate_roasts_prompts (teams : List Team) (ctx : LeagueCtx)
    (matchups : List Matchup) (week_number : Option Int) (season_phase : String)
    (playoff_bracket : Option (List BracketEntry)) : List String :=
  (batches teams).map
    (fun b => build_prompt b ctx (teams.length : Int) matchups week_number
      season_phase playoff_bracket (some teams))

/-- A decoded request body (the result of `json.loads` plus the `.get`
defaults the handler applies: missing `teams`, `context`, `matchups` become
empty, `season_phase` defaults to `"regular_season"`). -/
structure RoastRequest where
  teams : List Team
  ctx : LeagueCtx
  matchups : List Matchup
  week_number : Option Int
  season_phase : String
  playoff_bracket : Option (List BracketEntry)
deriving Repr

/-- What the handler observably does: the HTTP status code and the list of
generation prompts dispatched to Bedrock before returning. -/
structure HandlerOutcome where
  statusCode : Nat
  generation_prompts : List String
deriving Repr, DecidableEq

/-- `handler` — `json.loads` of the request body is abstracted as the
`Option RoastRequest` argument (`none` = `json.JSONDecodeError`, caught and
answered with 400 before any work).  An empty team list is answered with
400 before `_generate_roasts_parallel` runs; otherwise the batched
generation calls are dispatched (their prompts are recorded; the success
path answers 200). -/
def handler : Option RoastRequest → HandlerOutcome
  | none => ⟨400, []⟩
  | some req =>
    if req.teams.isEmpty then ⟨400, []⟩
    else
      ⟨200, generate_roasts_prompts req.teams req.ctx req.matchups
        req.week_number req.season_phase req.playoff_bracket⟩

/-! ## Response decoding (`_call_bedrock`, lines 439–447)

The response text is processed as a character list: `text.strip()`, a
markdown-fence strip, then `json.loads`.  `json.loads` is modelled by a
parser for the shape the contract requires — a flat JSON object mapping
strings to strings — and the claim's "JSON serialization" by a canonical
JSON encoder `dumpsL` (keys and values escaped per RFC 8259, members
separated `", "` and `": "` as `json.dumps` does). -/

/-- Backtick, brace chars (kept out of literals for hygiene). -/
def btick : Char := Char.ofNat 96

/-- Opening brace character. -/
def lbrace : Char := Char.ofNat 123

/-- Closing brace character. -/
def rbrace : Char := Char.ofNat 125

/-- The ```` ``` ```` fence marker. -/
def fenceMarker : List Char := [btick, btick, btick]

/-- JSON insignificant whitespace (RFC 8259: space, tab, LF, CR). -/
def isJsonWs (c : Char) : Bool :=
  c.toNat == 32 || c.toNat == 9 || c.toNat == 10 || c.toNat == 13

/-- ASCII whitespace removed by Python `str.strip()` (the non-ASCII
whitespace Python also strips never occurs in the texts at issue). -/
def isPySpace (c : Char) : Bool :=
  isJsonWs c || c.toNat == 11 || c.toNat == 12

/-- Python `str.strip()`. -/
def pyStrip (l : List Char) : List Char :=
  ((l.dropWhile isPySpace).reverse.dropWhile isPySpace).reverse

/-- `text.split("\n", 1)[1]` (used under the guard `"\n" in text`). -/
def afterFirstNewline (l : List Char) : List Char :=
  (l.dropWhile (fun c => c != '\n')).drop 1

/-- Skip insignificant whitespace, as `json.loads` does between tokens. -/
def skipJws : List Char → List Char
  | c :: cs => if isJsonWs c then skipJws cs else c :: cs
  | [] => []

/-- Lower-case hex digit for `d < 16`. -/
def toHexDigit (d : Nat) : Char :=
  if d < 10 then Char.ofNat (48 + d) else Char.ofNat (97 + d - 10)

/-- Hex digit value. -/
def hexVal (c : Char) : Option Nat :=
  let n := c.toNat
  if 48 ≤ n ∧ n ≤ 57 then some (n - 48)
  else if 97 ≤ n ∧ n ≤ 102 then some (n - 87)
  else if 65 ≤ n ∧ n ≤ 70 then some (n - 55)
  else none

/-- Four hex digits as a code point. -/
def hexQuad (p q r s : Char) : Option Nat :=
  match hexVal p, hexVal q, hexVal r, hexVal s with
  | some wp, some wq, some wr, some ws => some (wp * 4096 + wq * 256 + wr * 16 + ws)
  | _, _, _, _ => none

/-- JSON escape of one character, as `json.dumps` emits it: `"` and `\`
get a backslash, the five named control characters their short escapes,
the remaining control characters `\u00XX`, and everything else stands
for itself (as with `ensure_ascii=False`; either way is valid JSON and
decodes identically). -/
def escapeCharL (c : Char) : List Char :=
  if c = '"' then ['\\', '"']
  else if c = '\\' then ['\\', '\\']
  else if c = '\n' then ['\\', 'n']
  else if c = '\t' then ['\\', 't']
  else if c = '\r' then ['\\', 'r']
  else if c.toNat = 8 then ['\\', 'b']
  else if c.toNat = 12 then ['\\', 'f']
  else if c.toNat < 32 then
    ['\\', 'u', '0', '0', toHexDigit (c.toNat / 16), toHexDigit (c.toNat % 16)]
  else [c]

/-- A JSON string literal for `s`. -/
def encodeStringL (s : String) : List Char :=
  '"' :: (s.toList.flatMap escapeCharL ++ ['"'])

/-- One `"key": "value"` member (`json.dumps` uses `": "`). -/
def encodeMemberL (kv : String × String) : List Char :=
  encodeStringL kv.1 ++ ':' :: ' ' :: encodeStringL kv.2

/-- The members of an object, `", "`-separated. -/
def encodeMembersL : List (String × String) → List Char
  | [] => []
  | [kv] => encodeMemberL kv
  | kv :: rest => encodeMemberL kv ++ ',' :: ' ' :: encodeMembersL rest

/-- The canonical JSON serialization of a string-to-string mapping, as
`json.dumps` produces for such a dict. -/
def dumpsL (m : List (String × String)) : List Char :=
  lbrace :: (encodeMembersL m ++ [rbrace])

/-- Decode one simple escape character. -/
def unescapeChar (e : Char) : Option Char :=
  if e = '"' ∨ e = '\\' ∨ e = '/' then some e
  else if e = 'n' then some '\n'
  else if e = 't' then some '\t'
  else if e = 'r' then some '\r'
  else if e = 'b' then some (Char.ofNat 8)
  else if e = 'f' then some (Char.ofNat 12)
  else none

/-- Parse a JSON string body after its opening quote.  Strict like
`json.loads`: raw control characters and unknown escapes are rejected.
(Surrogate-pair recombination is omitted: the serializations quantified
over below never emit `\u` escapes beyond `\u001f`.) -/
def parseStrAux : List Char → List Char → Option (String × List Char)
  | acc, '"' :: rest => some (String.mk acc.reverse, rest)
  | acc, '\\' :: 'u' :: p :: q :: r :: s :: rest =>
    match hexQuad p q r s with
    | some n =>
      if n < 55296 ∨ 57344 ≤ n then parseStrAux (Char.ofNat n :: acc) rest else none
    | none => none
  | acc, '\\' :: e :: rest =>
    match unescapeChar e with
    | some ch => parseStrAux (ch :: acc) rest
    | none => none
  | acc, c :: rest =>
    if c.toNat < 32 then none else parseStrAux (c :: acc) rest
  | _, [] => none

/-- Parse a JSON string literal (opening quote included). -/
def parseStr (l : List Char) : Option (String × List Char) :=
  match l with
  | '"' :: rest => parseStrAux [] rest
  | _ => none

/-- Parse the members of an object, positioned at a key; `fuel` bounds the
member count (callers pass more than the input length, which suffices). -/
def parseMembersAux :
    Nat → List (String × String) → List Char →
      Option (List (String × String) × List Char)
  | 0, _, _ => none
  | fuel + 1, acc, l =>
    match parseStr l with
    | none => none
    | some (k, r1) =>
      match skipJws r1 with
      | ':' :: r2 =>
        match parseStr (skipJws r2) with
        | none => none
        | some (v, r3) =>
          match skipJws r3 with
          | ',' :: r4 => parseMembersAux fuel ((k, v) :: acc) (skipJws r4)
          | c :: r4 =>
            if c = rbrace then some (((k, v) :: acc).reverse, r4) else none
          | [] => none
      | _ => none

/-- `json.loads` restricted to the contract's shape: a single flat JSON
object whose keys and values are strings, with nothing but whitespace
around it. -/
def jsonLoadsObj (l : List Char) : Option (List (String × String)) :=
  match skipJws l with
  | c :: rest =>
    if c = lbrace then
      match skipJws rest with
      | d :: rest2 =>
        if d = rbrace then
          if (skipJws rest2).isEmpty then some [] else none
        else
          match parseMembersAux (rest.length + 1) [] (skipJws rest) with
          | some (ms, rest3) => if (skipJws rest3).isEmpty then some ms else none
          | none => none
      | [] => none
    else none
  | [] => none

/-- The response-text post-processing of `_call_bedrock`: `strip`, the
markdown-fence removal, and the JSON decode. -/
def call_bedrock_decode (raw : List Char) : Option (List (String × String)) :=
  let text := pyStrip raw
  let text :=
    if fenceMarker.isPrefixOf text then
      let t1 := if text.contains '\n' then afterFirstNewline text else text.drop 3
      let t2 := if fenceMarker.isSuffixOf t1 then t1.take (t1.length - 3) else t1
      pyStrip t2
    else text
  jsonLoadsObj text

/-! ## Tier bands

The tier headers display the rank ranges `"ranks 1-{top_cutoff}"`,
`"ranks {top_cutoff+1}-{mid_cutoff}"` and `"ranks {mid_cutoff+1}+"`.
The following predicates transcribe those displayed ranges as sets of
ranks (bounded above by the team count for the open-ended bottom band). -/

/-- Rank `r` lies in the displayed TOP TIER band `1..top_cutoff`. -/
def in_top_tier (r : Int) : Prop := 1 ≤ r ∧ r ≤ top_cutoff

/-- Rank `r` lies in the displayed MIDDLE TIER band `top_cutoff+1..mid_cutoff`. -/
def in_middle_tier (n r : Int) : Prop := top_cutoff + 1 ≤ r ∧ r ≤ mid_cutoff n

/-- Rank `r` lies in the displayed BOTTOM TIER band `mid_cutoff+1..n`. -/
def in_bottom_tier (n r : Int) : Prop := mid_cutoff n + 1 ≤ r ∧ r ≤ n

instance (r : Int) : Decidable (in_top_tier r) := by unfold in_top_tier; infer_instance

instance (n r : Int) : Decidable (in_middle_tier n r) := by
  unfold in_middle_tier; infer_instance

instance (n r : Int) : Decidable (in_bottom_tier n r) := by
  unfold in_bottom_tier; infer_instance

/-! ## Concrete sample inputs (for witnesses and counterexamples) -/

/-- A minimal team record. -/
def mk_team (i nm : String) : Team := ⟨i, nm, "Owner", "0-0", none, none, none, []⟩

/-- An empty league context. -/
def empty_ctx : LeagueCtx := ⟨[], [], none, none⟩

/-- A bracket entry flagged BOTH championship and consolation. -/
def dual_entry : BracketEntry :=
  ⟨some "1", some "1", some "1", none, some false, some true, some true⟩

/-- A bracket entry flagged BOTH championship and eliminated. -/
def champ_elim_entry : BracketEntry :=
  ⟨some "1", some "1", some "1", none, some true, some false, some true⟩

/-- A matchup with no scores and no players. -/
def scoreless_matchup : Matchup := ⟨some "1", some "2", none, none, [], []⟩

/-- A matchup with explicit scores (home 110.0, away 95.0). -/
def sample_matchup : Matchup := ⟨some "1", some "2", some 1100, some 950, [], []⟩

/-- A starter with the given points. -/
def mk_starter (nm : String) (p : Score) : PlayerStat :=
  ⟨some nm, some "RB", some p, some true⟩

/-! ## Claim C8: handler rejects invalid/empty input before any generation -/

/-- C8: a request whose body is not decodable JSON, and a request whose
team list is empty or absent, are answered with status 400, and no
generation call is dispatched before returning — no partial work. -/
theorem handler_rejects_before_generation :
    handler none = ⟨400, []⟩ ∧
    ∀ req : RoastRequest, req.teams = [] → handler (some req) = ⟨400, []⟩ := by
  refine ⟨rfl, fun req h => ?_⟩
  simp [handler, h]

/-- Witness for C8 at a concrete empty-team request. -/
theorem handler_rejects_before_generation_witness :
    handler (some ⟨[], empty_ctx, [], none, "regular_season", none⟩) = ⟨400, []⟩ :=
  handler_rejects_before_generation.2 ⟨[], empty_ctx, [], none, "regular_season", none⟩ rfl

/-! ## Claim C2: tier cutoffs and rank bands -/

/-- C2 counterexample: at total team count `n = 1`, `mid_cutoff = 0` and
rank 1 lies in BOTH the displayed TOP TIER band (`1..3`) and the displayed
BOTTOM TIER band (`mid_cutoff+1.. = 1..`): the bands do not partition the
ranks for every `n ≥ 1`. -/
theorem tier_bands_overlap_at_one :
    mid_cutoff 1 = 0 ∧ in_top_tier 1 ∧ in_bottom_tier 1 1 := by decide

/-- C2 amended: for every total team count `n ≥ 4`, `top_cutoff = 3`,
`mid_cutoff = min 7 (n-1)`, and the three displayed bands partition the
ranks `1..n` exactly — each rank in exactly one band.  (For `n ≤ 3` the
TOP and BOTTOM bands overlap, as the counterexample shows.) -/
theorem tier_bands_partition (n r : Int) (hn : 4 ≤ n) (h1 : 1 ≤ r) (hr : r ≤ n) :
    top_cutoff = 3 ∧ mid_cutoff n = min 7 (n - 1) ∧
    (in_top_tier r ∨ in_middle_tier n r ∨ in_bottom_tier n r) ∧
    ¬(in_top_tier r ∧ in_middle_tier n r) ∧
    ¬(in_top_tier r ∧ in_bottom_tier n r) ∧
    ¬(in_middle_tier n r ∧ in_bottom_tier n r) := by
  refine ⟨rfl, rfl, ?_, ?_, ?_, ?_⟩ <;>
    simp only [in_top_tier, in_middle_tier, in_bottom_tier, mid_cutoff, top_cutoff,
      min_def] <;>
    split <;> omega

/-- Witness for C2 amended at `n = 10`, `r = 5`. -/
theorem tier_bands_partition_witness :
    top_cutoff = 3 ∧ mid_cutoff 10 = min 7 (10 - 1) ∧
    (in_top_tier 5 ∨ in_middle_tier 10 5 ∨ in_bottom_tier 10 5) ∧
    ¬(in_top_tier 5 ∧ in_middle_tier 10 5) ∧
    ¬(in_top_tier 5 ∧ in_bottom_tier 10 5) ∧
    ¬(in_middle_tier 10 5 ∧ in_bottom_tier 10 5) :=
  tier_bands_partition 10 5 (by decide) (by decide) (by decide)

/-! ## Claim C3: bracket-section grouping -/

/-- C3 counterexample: an entry with `is_championship` AND `is_consolation`
both true appears in the championship group AND in the consolation group
(the consolation filter does not exclude championship entries), and the
rendered section therefore lists it twice. -/
theorem bracket_groups_overlap :
    dual_entry ∈ bracket_championship [dual_entry] ∧
    dual_entry ∈ bracket_consolation [dual_entry] ∧
    format_playoff_bracket_section [dual_entry] [] =
      "=== PLAYOFF BRACKET ===\n\n🏆 CHAMPIONSHIP MATCHUP:\n  #1 Team 1 vs TBD\n\n"
        ++ "CONSOLATION BRACKET (the losers\x27 lounge):\n  #1 Team 1\n" := by
  refine ⟨by decide, by decide, ?_⟩
  rfl

/-- C3 amended: `is_championship` entries always join the championship
group and never the winners group, but additionally join the consolation
group exactly when `is_consolation` is also set; entries without
`is_championship` land in exactly one group — consolation when
`is_consolation`, otherwise winners. -/
theorem bracket_groups_classification (b : List BracketEntry) (e : BracketEntry)
    (he : e ∈ b) :
    (is_champ e = true →
      e ∈ bracket_championship b ∧ e ∉ bracket_winners b ∧
      (e ∈ bracket_consolation b ↔ is_consol e = true)) ∧
    (is_champ e = false → is_consol e = true →
      e ∈ bracket_consolation b ∧ e ∉ bracket_championship b ∧
        e ∉ bracket_winners b) ∧
    (is_champ e = false → is_consol e = false →
      e ∈ bracket_winners b ∧ e ∉ bracket_championship b ∧
        e ∉ bracket_consolation b) := by
  refine ⟨fun hc => ?_, fun hc hco => ?_, fun hc hco => ?_⟩ <;>
    simp [bracket_championship, bracket_winners, bracket_consolation,
      List.mem_filter, he, hc] <;>
    simp [hco]

/-- Witness for C3 amended at the dual-flag entry. -/
theorem bracket_groups_classification_witness :
    dual_entry ∈ bracket_championship [dual_entry] ∧
    dual_entry ∉ bracket_winners [dual_entry] ∧
    (dual_entry ∈ bracket_consolation [dual_entry] ↔ is_consol dual_entry = true) :=
  (bracket_groups_classification [dual_entry] dual_entry (by decide)).1 (by decide)

/-! ## Claim C5: matchup-section week header -/

/-- C5 counterexample: a SUPPLIED week number `0` is falsy in Python, so the
header reads `"THIS WEEK'S MATCHUPS"` — not `"WEEK 0'S MATCHUPS"` as the
claim requires — and the whole section equals the no-week-number output. -/
theorem week_zero_header_not_week :
    week_label (some 0) = "THIS WEEK" ∧
    week_label (some 0) ≠ "WEEK 0" ∧
    format_matchups_section [sample_matchup] [] (some 0) =
      format_matchups_section [sample_matchup] [] none := by
  exact ⟨rfl, by decide, rfl⟩

/-- C5 amended: for every non-empty matchup list, the section header is
`"=== {label}'S MATCHUPS ===\n"` where the label is `"WEEK {n}"` whenever a
NONZERO week number `n` is supplied and `"THIS WEEK"` when the week number
is absent or zero. -/
theorem matchup_header_week_label (matchups : List Matchup) (all_teams : List Team)
    (w : Option Int) (h : matchups ≠ []) :
    format_matchups_section matchups all_teams w =
      String.intercalate "\n"
        (("=== " ++ week_label w ++ "\x27S MATCHUPS ===\n")
          :: matchups.flatMap (matchup_lines all_teams)) ∧
    (∀ n : Int, w = some n → n ≠ 0 → week_label w = "WEEK " ++ toString n) ∧
    ((w = none ∨ w = some 0) → week_label w = "THIS WEEK") := by
  refine ⟨?_, fun n hw hn => ?_, fun hw => ?_⟩
  · rw [format_matchups_section, if_neg (by simpa [List.isEmpty_iff] using h)]
  · subst hw; simp [week_label, hn]
  · rcases hw with hw | hw <;> subst hw <;> simp [week_label]

/-- Witness for C5 amended at one matchup and week 7. -/
theorem matchup_header_week_label_witness :
    format_matchups_section [sample_matchup] [] (some 7) =
      String.intercalate "\n"
        (("=== " ++ week_label (some 7) ++ "\x27S MATCHUPS ===\n")
          :: [sample_matchup].flatMap (matchup_lines [])) ∧
    (∀ n : Int, some 7 = some n → n ≠ 0 → week_label (some 7) = "WEEK " ++ toString n) ∧
    ((none = some 7 ∨ (none : Option Int) = some 0) → week_label (some 7) = "THIS WEEK") := by
  have h := matchup_header_week_label [sample_matchup] [] (some 7) (by decide)
  exact ⟨h.1, h.2.1, fun hw => by cases hw <;> simp_all⟩

/-! ## Claim C9: missing matchup scores default to zero -/

/-- C9: a missing `home_score`/`away_score` is read as `0`, so a matchup's
lines equal those of the same matchup with the missing scores made an
explicit `0`; with both scores absent the header shows `(0.0)` for both
sides and both results are `TIE`. -/
theorem missing_scores_default_zero (all_teams : List Team) (m : Matchup) :
    matchup_lines all_teams m =
      matchup_lines all_teams
        { m with home_score := some (m.home_score.getD 0),
                 away_score := some (m.away_score.getD 0) } ∧
    (m.home_score = none → m.away_score = none →
      matchup_header all_teams m =
        team_name_of all_teams (m.home_team_id.getD "") ++ " (" ++ fmt1 0 ++ ") vs "
          ++ team_name_of all_teams (m.away_team_id.getD "") ++ " (" ++ fmt1 0 ++ ")" ∧
      fmt1 0 = "0.0" ∧
      matchup_results (m.home_score.getD 0) (m.away_score.getD 0) = ("TIE", "TIE")) := by
  refine ⟨rfl, fun h1 h2 => ⟨?_, rfl, ?_⟩⟩
  · simp [matchup_header, h1, h2]
  · rw [h1, h2]; rfl

/-- Witness for C9 at a matchup with both scores absent. -/
theorem missing_scores_default_zero_witness :
    matchup_header [] scoreless_matchup =
      team_name_of [] (scoreless_matchup.home_team_id.getD "") ++ " (" ++ fmt1 0
        ++ ") vs " ++ team_name_of [] (scoreless_matchup.away_team_id.getD "")
        ++ " (" ++ fmt1 0 ++ ")" ∧
    fmt1 0 = "0.0" ∧
    matchup_results (scoreless_matchup.home_score.getD 0)
      (scoreless_matchup.away_score.getD 0) = ("TIE", "TIE") :=
  (missing_scores_default_zero [] scoreless_matchup).2 rfl rfl

/-! ## Claim C10: playoff-approach groups are not disjoint -/

/-- C10: the approach builder computes its four groups by independent
filters, so an entry flagged both `is_championship` and `is_eliminated`
belongs to both the championship and the eliminated group, its name is in
both joined name lists, and both the CHAMPIONSHIP CONTENDERS sentence and
the ELIMINATED sentence appear in the same approach text. -/
theorem playoff_groups_not_disjoint (b : List BracketEntry) (all_teams : List Team)
    (e : BracketEntry) (he : e ∈ b) (hc : is_champ e = true) (hel : is_elim e = true) :
    e ∈ approach_champ_teams b ∧ e ∈ approach_eliminated b ∧
    team_name_or_unknown all_teams (e.team_id.getD "") ∈
      (approach_champ_teams b).map
        (fun x => team_name_or_unknown all_teams (x.team_id.getD "")) ∧
    team_name_or_unknown all_teams (e.team_id.getD "") ∈
      (approach_eliminated b).map
        (fun x => team_name_or_unknown all_teams (x.team_id.getD "")) ∧
    champ_sentence b all_teams ∈ playoff_approach_lines b all_teams ∧
    eliminated_sentence b all_teams ∈ playoff_approach_lines b all_teams := by
  have hmc : e ∈ approach_champ_teams b := List.mem_filter.2 ⟨he, hc⟩
  have hme : e ∈ approach_eliminated b := List.mem_filter.2 ⟨he, hel⟩
  have hne1 : (approach_champ_teams b).isEmpty = false := by
    simp [List.isEmpty_iff]
    exact List.ne_nil_of_mem hmc
  have hne2 : (approach_eliminated b).isEmpty = false := by
    simp [List.isEmpty_iff]
    exact List.ne_nil_of_mem hme
  refine ⟨hmc, hme, List.mem_map_of_mem _ hmc, List.mem_map_of_mem _ hme, ?_, ?_⟩ <;>
    simp [playoff_approach_lines, hne1, hne2]

/-- Witness for C10 at a concrete championship-and-eliminated entry. -/
theorem playoff_groups_not_disjoint_witness :
    champ_elim_entry ∈ approach_champ_teams [champ_elim_entry] ∧
    champ_elim_entry ∈ approach_eliminated [champ_elim_entry] ∧
    team_name_or_unknown [] (champ_elim_entry.team_id.getD "") ∈
      (approach_champ_teams [champ_elim_entry]).map
        (fun x => team_name_or_unknown [] (x.team_id.getD "")) ∧
    team_name_or_unknown [] (champ_elim_entry.team_id.getD "") ∈
      (approach_eliminated [champ_elim_entry]).map
        (fun x => team_name_or_unknown [] (x.team_id.getD "")) ∧
    champ_sentence [champ_elim_entry] [] ∈ playoff_approach_lines [champ_elim_entry] [] ∧
    eliminated_sentence [champ_elim_entry] [] ∈
      playoff_approach_lines [champ_elim_entry] [] :=
  playoff_groups_not_disjoint [champ_elim_entry] [] champ_elim_entry
    (by decide) (by decide) (by decide)

/-! ## Claim C1: playoff mode selection and bracketless fallback -/

/-- With an empty or absent bracket, the mode triple of a `"playoffs"`
phase coincides with that of `"regular_season"`. -/
theorem mode_parts_fallback (total : Int) (bracket : Option (List BracketEntry))
    (rt : List Team) (sk : String) (hb : bracket.getD [] = []) :
    mode_parts total "playoffs" bracket rt sk =
      mode_parts total "regular_season" bracket rt sk := by
  cases bracket with
  | none => simp [mode_parts, is_playoff_mode, bracket_nonempty]
  | some l =>
    simp only [Option.getD_some] at hb
    subst hb
    simp [mode_parts, is_playoff_mode, bracket_nonempty]

/-- C1: playoff narrative mode is selected iff `season_phase = "playoffs"`
AND the bracket list is non-empty; when it is selected the playoff
approach text and bracket section are the ones emitted; and when the phase
is `"playoffs"` but the bracket is empty or absent, the assembled prompt
is byte-identical to the regular-season prompt for the same input —
no playoff text, no bracket section. -/
theorem playoff_mode_iff_bracket (teams : List Team) (ctx : LeagueCtx) (total : Int)
    (matchups : List Matchup) (week : Option Int)
    (bracket : Option (List BracketEntry)) (all_teams : Option (List Team)) :
    (∀ phase : String, is_playoff_mode phase bracket = true ↔
      (phase = "playoffs" ∧ bracket.getD [] ≠ [])) ∧
    (∀ phase : String, is_playoff_mode phase bracket = true →
      mode_parts total phase bracket (resolve_teams_of teams all_teams) (sacko_of ctx) =
        (build_playoff_roasting_approach (bracket.getD [])
            (resolve_teams_of teams all_teams),
         format_playoff_bracket_section (bracket.getD [])
            (resolve_teams_of teams all_teams),
         playoff_requirements_text)) ∧
    (bracket.getD [] = [] →
      build_prompt teams ctx total matchups week "playoffs" bracket all_teams =
        build_prompt teams ctx total matchups week "regular_season" bracket all_teams) := by
  refine ⟨fun phase => ?_, fun phase h => ?_, fun hb => ?_⟩
  · cases bracket with
    | none => simp [is_playoff_mode, bracket_nonempty]
    | some l =>
      simp [is_playoff_mode, bracket_nonempty, List.isEmpty_iff, beq_iff_eq]
  · simp [mode_parts, h]
  · unfold build_prompt prompt_prefix
    simp only [mode_parts_fallback _ _ _ _ hb]

/-- Witness for C1 at a concrete one-team request with an absent bracket. -/
theorem playoff_mode_iff_bracket_witness :
    build_prompt [mk_team "1" "Eagles"] empty_ctx 1 [] none "playoffs" none none =
      build_prompt [mk_team "1" "Eagles"] empty_ctx 1 [] none "regular_season"
        none none :=
  (playoff_mode_iff_bracket [mk_team "1" "Eagles"] empty_ctx 1 [] none none none).2.2 rfl

/-! ## Claim C6: batching contract -/

/-- Concatenating the batch slices restores the original list. -/
theorem batches_join {α : Type} (l : List α) : (batches l).flatten = l := by
  have aux : ∀ (n : Nat) (l : List α), l.length ≤ n → (batches l).flatten = l := by
    intro n
    induction n with
    | zero =>
      intro l hl
      have h0 : l = [] := List.eq_nil_of_length_eq_zero (Nat.le_zero.1 hl)
      subst h0; simp [batches]
    | succ n ih =>
      intro l hl
      cases l with
      | nil => simp [batches]
      | cons x xs =>
        have hd : (xs.drop (BATCH_SIZE - 1)).length ≤ n := by
          simp only [List.length_drop]
          simp only [List.length_cons] at hl
          omega
        simp only [batches, List.flatten_cons]
        rw [ih _ hd]
        simp [List.take_append_drop]
  exact aux l.length l le_rfl

/-- Every batch is non-empty and no longer than `BATCH_SIZE`. -/
theorem batches_sizes {α : Type} (l : List α) :
    ∀ c ∈ batches l, c ≠ [] ∧ c.length ≤ BATCH_SIZE := by
  have aux : ∀ (n : Nat) (l : List α), l.length ≤ n →
      ∀ c ∈ batches l, c ≠ [] ∧ c.length ≤ BATCH_SIZE := by
    intro n
    induction n with
    | zero =>
      intro l hl c hc
      have h0 : l = [] := List.eq_nil_of_length_eq_zero (Nat.le_zero.1 hl)
      subst h0; simp [batches] at hc
    | succ n ih =>
      intro l hl c hc
      cases l with
      | nil => simp [batches] at hc
      | cons x xs =>
        simp only [batches, List.mem_cons] at hc
        rcases hc with hc | hc
        · subst hc
          refine ⟨by simp, ?_⟩
          simp only [List.length_cons, List.length_take, BATCH_SIZE]
          omega
        · refine ih _ ?_ c hc
          simp only [List.length_drop]
          simp only [List.length_cons] at hl
          omega
  exact aux l.length l le_rfl

/-- Every batch except possibly the last has length exactly `BATCH_SIZE`. -/
theorem batches_full {α : Type} (l : List α) :
    ∀ i : Nat, i + 1 < (batches l).length → ((batches l).getD i []).length = BATCH_SIZE := by
  have aux : ∀ (n : Nat) (l : List α), l.length ≤ n →
      ∀ i : Nat, i + 1 < (batches l).length →
        ((batches l).getD i []).length = BATCH_SIZE := by
    intro n
    induction n with
    | zero =>
      intro l hl i hi
      have h0 : l = [] := List.eq_nil_of_length_eq_zero (Nat.le_zero.1 hl)
      subst h0; simp [batches] at hi
    | succ n ih =>
      intro n1 hl i hi
      cases n1 with
      | nil => simp [batches] at hi
      | cons x xs =>
        cases i with
        | zero =>
          simp only [batches, List.length_cons] at hi ⊢
          have hrest : batches (xs.drop (BATCH_SIZE - 1)) ≠ [] := by
            intro hnil
            rw [hnil] at hi
            simp at hi
          have hxs : xs.drop (BATCH_SIZE - 1) ≠ [] := by
            intro hnil
            exact hrest (by rw [hnil]; simp [batches])
          have hlen : BATCH_SIZE - 1 < xs.length := by
            have := List.length_pos.2 hxs
            simpa [List.length_drop] using this
          simp only [List.getD, List.get?_cons_zero, Option.getD_some,
            List.length_cons, List.length_take, BATCH_SIZE] at *
          omega
        | succ i =>
          simp only [batches, List.length_cons] at hi ⊢
          have hd : (xs.drop (BATCH_SIZE - 1)).length ≤ n := by
            simp only [List.length_drop]
            simp only [List.length_cons] at hl
            omega
          have := ih _ hd i (by omega)
          simpa [List.getD] using this
  exact aux l.length l le_rfl

/-- C6: `_generate_roasts_parallel` slices the team list into consecutive
`BATCH_SIZE`-sized chunks in the original order (only the final chunk may
be shorter, and their concatenation restores the list); each chunk's
prompt is built with the chunk as the roast set and the FULL original list
as the name-resolution source, and the `"Keys for this batch"` id list of
each chunk's prompt is exactly the chunk's own team ids in chunk order. -/
theorem batching_contract (teams : List Team) (ctx : LeagueCtx)
    (matchups : List Matchup) (week : Option Int) (phase : String)
    (bracket : Option (List BracketEntry)) :
    (batches teams).flatten = teams ∧
    (∀ c ∈ batches teams, c ≠ [] ∧ c.length ≤ BATCH_SIZE) ∧
    (∀ i : Nat, i + 1 < (batches teams).length →
      ((batches teams).getD i []).length = BATCH_SIZE) ∧
    generate_roasts_prompts teams ctx matchups week phase bracket =
      (batches teams).map (fun c => build_prompt c ctx (teams.length : Int)
        matchups week phase bracket (some teams)) ∧
    (∀ c ∈ batches teams,
      build_prompt c ctx (teams.length : Int) matchups week phase bracket (some teams) =
        prompt_prefix c ctx (teams.length : Int) matchups week phase bracket (some teams)
          ++ "Keys for this batch: " ++ id_list c ++ prompt_suffix ∧
      id_list c = String.intercalate ", " (c.map (fun t => "\"" ++ t.id ++ "\""))) :=
  ⟨batches_join teams, batches_sizes teams, batches_full teams, rfl,
   fun _ _ => ⟨rfl, rfl⟩⟩

/-- Witness for C6 at three concrete teams (two chunks, first full). -/
theorem batching_contract_witness :
    (batches [mk_team "1" "A", mk_team "2" "B", mk_team "3" "C"]).flatten =
      [mk_team "1" "A", mk_team "2" "B", mk_team "3" "C"] ∧
    ((batches [mk_team "1" "A", mk_team "2" "B", mk_team "3" "C"]).getD 0 []).length =
      BATCH_SIZE :=
  ⟨(batching_contract [mk_team "1" "A", mk_team "2" "B", mk_team "3" "C"]
      empty_ctx [] none "regular_season" none).1,
   (batching_contract [mk_team "1" "A", mk_team "2" "B", mk_team "3" "C"]
      empty_ctx [] none "regular_season" none).2.2.1 0 (by simp [batches, BATCH_SIZE])⟩

/-! ## Claim C4: top-scorer and biggest-bust markers -/

/-- Python `max` never returns less than its running best. -/
theorem py_max_init_le (b : Score) (xs : List Score) : b ≤ py_max b xs := by
  induction xs generalizing b with
  | nil => simp [py_max]
  | cons x xs ih =>
    simp only [py_max]
    have h1 : b ≤ (if x > b then x else b) := by
      split
      · exact le_of_lt (by assumption)
      · exact le_refl b
    exact le_trans h1 (ih _)

/-- Python `max` bounds every list element from above. -/
theorem le_py_max_of_mem {x : Score} {xs : List Score} (b : Score) (h : x ∈ xs) :
    x ≤ py_max b xs := by
  induction xs generalizing b with
  | nil => cases h
  | cons y ys ih =>
    rcases List.mem_cons.1 h with rfl | h'
    · simp only [py_max]
      have h1 : x ≤ (if x > b then x else b) := by
        split
        · exact le_refl x
        · exact le_of_not_lt (by assumption)
      exact le_trans h1 (py_max_init_le _ _)
    · simp only [py_max]
      exact ih _ h'

/-- Python `max` returns its initial best or a list element. -/
theorem py_max_mem (b : Score) (xs : List Score) :
    py_max b xs = b ∨ py_max b xs ∈ xs := by
  induction xs generalizing b with
  | nil => left; rfl
  | cons x xs ih =>
    simp only [py_max]
    rcases ih (if x > b then x else b) with h | h
    · by_cases hxb : x > b
      · rw [if_pos hxb] at h ⊢
        right; rw [h]; exact List.mem_cons_self _ _
      · rw [if_neg hxb] at h ⊢
        left; exact h
    · right; exact List.mem_cons_of_mem _ h

/-- Python `min` never returns more than its running best. -/
theorem py_min_le_init (b : Score) (xs : List Score) : py_min b xs ≤ b := by
  induction xs generalizing b with
  | nil => simp [py_min]
  | cons x xs ih =>
    simp only [py_min]
    have h1 : (if x < b then x else b) ≤ b := by
      split
      · exact le_of_lt (by assumption)
      · exact le_refl b
    exact le_trans (ih _) h1

/-- Python `min` bounds every list element from below. -/
theorem py_min_le_of_mem {x : Score} {xs : List Score} (b : Score) (h : x ∈ xs) :
    py_min b xs ≤ x := by
  induction xs generalizing b with
  | nil => cases h
  | cons y ys ih =>
    rcases List.mem_cons.1 h with rfl | h'
    · simp only [py_min]
      have h1 : (if x < b then x else b) ≤ x := by
        split
        · exact le_refl x
        · exact le_of_not_lt (by assumption)
      exact le_trans (py_min_le_init _ _) h1
    · simp only [py_min]
      exact ih _ h'

/-- Python `min` returns its initial best or a list element. -/
theorem py_min_mem (b : Score) (xs : List Score) :
    py_min b xs = b ∨ py_min b xs ∈ xs := by
  induction xs generalizing b with
  | nil => left; rfl
  | cons x xs ih =>
    simp only [py_min]
    rcases ih (if x < b then x else b) with h | h
    · by_cases hxb : x < b
      · rw [if_pos hxb] at h ⊢
        right; rw [h]; exact List.mem_cons_self _ _
      · rw [if_neg hxb] at h ⊢
        left; exact h
    · right; exact List.mem_cons_of_mem _ h

/-- The maximum value is attained in a non-empty list. -/
theorem top_val_mem {l : List Score} (h : l ≠ []) : top_val l ∈ l := by
  cases l with
  | nil => exact absurd rfl h
  | cons x xs =>
    simp only [top_val]
    rcases py_max_mem x xs with h' | h'
    · rw [h']; exact List.mem_cons_self _ _
    · exact List.mem_cons_of_mem _ h'

/-- Every element is at most the maximum. -/
theorem le_top_val {l : List Score} : ∀ x ∈ l, x ≤ top_val l := by
  intro x hx
  cases l with
  | nil => cases hx
  | cons y ys =>
    simp only [top_val]
    rcases List.mem_cons.1 hx with rfl | h'
    · exact py_max_init_le _ _
    · exact le_py_max_of_mem _ h'

/-- The minimum value is attained in a non-empty list. -/
theorem bust_val_mem {l : List Score} (h : l ≠ []) : bust_val l ∈ l := by
  cases l with
  | nil => exact absurd rfl h
  | cons x xs =>
    simp only [bust_val]
    rcases py_min_mem x xs with h' | h'
    · rw [h']; exact List.mem_cons_self _ _
    · exact List.mem_cons_of_mem _ h'

/-- Every element is at least the minimum. -/
theorem bust_val_le {l : List Score} : ∀ x ∈ l, bust_val l ≤ x := by
  intro x hx
  cases l with
  | nil => cases hx
  | cons y ys =>
    simp only [bust_val]
    rcases List.mem_cons.1 hx with rfl | h'
    · exact py_min_le_init _ _
    · exact py_min_le_of_mem _ h'

/-- The first index of a value present in the list is in range. -/
theorem first_idx_lt_length {v : Score} {l : List Score} (h : v ∈ l) :
    first_idx v l < l.length := by
  induction l with
  | nil => cases h
  | cons x xs ih =>
    simp only [first_idx]
    split
    · simp
    · rename_i hx
      rcases List.mem_cons.1 h with rfl | h'
      · exact absurd rfl hx
      · simpa using Nat.succ_lt_succ (ih h')

/-- The element at the first index of `v` is `v`. -/
theorem first_idx_getD {v : Score} {l : List Score} (h : v ∈ l) :
    l.getD (first_idx v l) 0 = v := by
  induction l with
  | nil => cases h
  | cons x xs ih =>
    simp only [first_idx]
    split
    · simpa
    · rename_i hx
      rcases List.mem_cons.1 h with rfl | h'
      · exact absurd rfl hx
      · simpa using ih h'

/-- No index before the first index of `v` holds `v`. -/
theorem first_idx_before {v : Score} {l : List Score} :
    ∀ j < first_idx v l, l.getD j 0 ≠ v := by
  induction l with
  | nil => simp [first_idx]
  | cons x xs ih =>
    simp only [first_idx]
    split
    · omega
    · rename_i hx
      intro j hj
      cases j with
      | zero => simpa using hx
      | succ j => simpa using ih j (by omega)

/-- C4: per matchup side, the markers computed over the starters' point
list (the `p is top` / `elif p is bust` checks with Python `max`/`min`
first-occurrence semantics): when the point values are pairwise distinct
and at least two starters exist, exactly one line (the first occurrence of
the maximum) carries `" ⭐ TOP SCORER"`, exactly one (the first occurrence
of the minimum) carries `" 💩 BIGGEST BUST"`, and every other line carries
no marker; when exactly one starter exists it is marked TOP SCORER only,
never BIGGEST BUST.  `side_lines` renders exactly these markers. -/
theorem starter_markers (ptsList : List Score) :
    (ptsList.Pairwise (fun a b => a ≠ b) → 2 ≤ ptsList.length →
      first_idx (top_val ptsList) ptsList ≠ first_idx (bust_val ptsList) ptsList ∧
      first_idx (top_val ptsList) ptsList < ptsList.length ∧
      first_idx (bust_val ptsList) ptsList < ptsList.length ∧
      starter_marker ptsList (first_idx (top_val ptsList) ptsList) = " ⭐ TOP SCORER" ∧
      starter_marker ptsList (first_idx (bust_val ptsList) ptsList) = " 💩 BIGGEST BUST" ∧
      (∀ i : Nat, i ≠ first_idx (top_val ptsList) ptsList →
        i ≠ first_idx (bust_val ptsList) ptsList → starter_marker ptsList i = "") ∧
      ptsList.getD (first_idx (top_val ptsList) ptsList) 0 = top_val ptsList ∧
      (∀ x ∈ ptsList, x ≤ top_val ptsList) ∧
      (∀ j < first_idx (top_val ptsList) ptsList, ptsList.getD j 0 ≠ top_val ptsList) ∧
      ptsList.getD (first_idx (bust_val ptsList) ptsList) 0 = bust_val ptsList ∧
      (∀ x ∈ ptsList, bust_val ptsList ≤ x) ∧
      (∀ j < first_idx (bust_val ptsList) ptsList, ptsList.getD j 0 ≠ bust_val ptsList)) ∧
    (ptsList.length = 1 →
      starter_marker ptsList 0 = " ⭐ TOP SCORER" ∧
      ∀ i : Nat, i ≠ 0 → starter_marker ptsList i = "") ∧
    (∀ (nm : String) (sc : Score) (res : String) (players : List PlayerStat),
      side_lines nm sc res players =
        ("  " ++ nm ++ " -- " ++ fmt1 sc ++ " pts (" ++ res ++ ")")
          :: (if (starters_of players).isEmpty then ["    No starter data available"]
              else (starters_of players).enum.map
                (fun ip => starter_line ((starters_of players).map stat_pts) ip.1 ip.2))
          ++ [""]) := by
  refine ⟨fun hdist hlen => ?_, fun hlen1 => ?_, fun nm sc res ps => rfl⟩
  · have hne : ptsList ≠ [] := by
      intro h; rw [h] at hlen; simp at hlen
    have htm := top_val_mem hne
    have hbm := bust_val_mem hne
    have hgt := first_idx_getD htm
    have hgb := first_idx_getD hbm
    have hti := first_idx_lt_length htm
    have hbi := first_idx_lt_length hbm
    have hneq : first_idx (top_val ptsList) ptsList ≠
        first_idx (bust_val ptsList) ptsList := by
      intro h
      have hv : top_val ptsList = bust_val ptsList := by rw [← hgt, h, hgb]
      match ptsList, hdist, hlen, hv with
      | x :: y :: rest, hdist, _, hv =>
        have hxy : x ≠ y := (List.pairwise_cons.1 hdist).1 y (List.mem_cons_self y rest)
        have h1 := le_top_val x (List.mem_cons_self x (y :: rest))
        have h2 := bust_val_le x (List.mem_cons_self x (y :: rest))
        have h3 := le_top_val y (List.mem_cons_of_mem x (List.mem_cons_self y rest))
        have h4 := bust_val_le y (List.mem_cons_of_mem x (List.mem_cons_self y rest))
        exact hxy (by linarith)
    refine ⟨hneq, hti, hbi, ?_, ?_, ?_, hgt, le_top_val, first_idx_before, hgb,
      bust_val_le, first_idx_before⟩
    · simp [starter_marker]
    · rw [starter_marker, if_neg (fun h => hneq h.symm), if_pos rfl]
    · intro i h1 h2
      rw [starter_marker, if_neg h1, if_neg h2]
  · match ptsList, hlen1 with
    | [x], _ =>
      have ht : top_val [x] = x := rfl
      have hb : bust_val [x] = x := rfl
      refine ⟨?_, fun i hi => ?_⟩
      · simp [starter_marker, first_idx, ht, hb]
      · simp [starter_marker, first_idx, ht, hb, hi]

/-- Witness for C4 at point lists `[3, 1, 2]` (distinct, three starters)
and `[5]` (a single starter). -/
theorem starter_markers_witness :
    (starter_marker [3, 1, 2] (first_idx (top_val [3, 1, 2]) [3, 1, 2]) =
        " ⭐ TOP SCORER" ∧
      starter_marker [3, 1, 2] (first_idx (bust_val [3, 1, 2]) [3, 1, 2]) =
        " 💩 BIGGEST BUST") ∧
    (starter_marker [5] 0 = " ⭐ TOP SCORER" ∧ starter_marker [5] 1 = "") := by
  have h1 := (starter_markers [3, 1, 2]).1 (by decide) (by decide)
  have h2 := (starter_markers [5]).2.1 rfl
  exact ⟨⟨h1.2.2.2.1, h1.2.2.2.2.1⟩, h2.1, h2.2 1 (by decide)⟩

/-! ## Claim C7: response decoding round-trip -/

/-- Hex digits decode their own encoding. -/
theorem hexVal_toHexDigit (d : Nat) (h : d < 16) : hexVal (toHexDigit d) = some d := by
  interval_cases d <;> rfl

/-- Parsing one escaped character undoes its escaping. -/
theorem parseStrAux_escapeChar (c : Char) (acc rest : List Char) :
    parseStrAux acc (escapeCharL c ++ rest) = parseStrAux (c :: acc) rest := by
  by_cases h1 : c = '"'
  · subst h1; rfl
  by_cases h2 : c = '\\'
  · subst h2; rfl
  by_cases h3 : c = '\n'
  · subst h3; rfl
  by_cases h4 : c = '\t'
  · subst h4; rfl
  by_cases h5 : c = '\r'
  · subst h5; rfl
  by_cases h6 : c.toNat = 8
  · have hc : c = Char.ofNat 8 := by rw [← h6, Char.ofNat_toNat]
    subst hc; rfl
  by_cases h7 : c.toNat = 12
  · have hc : c = Char.ofNat 12 := by rw [← h7, Char.ofNat_toNat]
    subst hc; rfl
  by_cases h8 : c.toNat < 32
  · have e : escapeCharL c =
        ['\\', 'u', '0', '0', toHexDigit (c.toNat / 16), toHexDigit (c.toNat % 16)] := by
      simp [escapeCharL, h1, h2, h3, h4, h5, h6, h7, h8]
    rw [e]
    have hdiv : c.toNat / 16 < 16 := by omega
    have hmod : c.toNat % 16 < 16 := by omega
    have harith : ((0 * 16 + 0) * 16 + c.toNat / 16) * 16 + c.toNat % 16 = c.toNat := by
      omega
    have hsur : c.toNat < 55296 ∨ 57344 ≤ c.toNat := Or.inl (by omega)
    have hh : hexQuad '0' '0' (toHexDigit (c.toNat / 16)) (toHexDigit (c.toNat % 16)) =
        some c.toNat := by
      have h0 : hexVal '0' = some 0 := rfl
      simp only [hexQuad, h0, hexVal_toHexDigit _ hdiv, hexVal_toHexDigit _ hmod,
        Option.some.injEq]
      omega
    simp only [List.cons_append, parseStrAux, hh]
    rw [if_pos hsur, Char.ofNat_toNat]
    simp
  · have e : escapeCharL c = [c] := by
      simp [escapeCharL, h1, h2, h3, h4, h5, h6, h7, h8]
    rw [e]
    rw [List.cons_append, parseStrAux.eq_def]
    simp [h1, h2, h8]

/-- Parsing an escaped run stops exactly at the closing quote. -/
theorem parseStrAux_escRun : ∀ (body acc rest : List Char),
    parseStrAux acc (body.flatMap escapeCharL ++ '"' :: rest) =
      some (String.mk (acc.reverse ++ body), rest)
  | [], acc, rest => by simp [parseStrAux]
  | c :: body, acc, rest => by
    rw [List.flatMap_cons, List.append_assoc, parseStrAux_escapeChar,
      parseStrAux_escRun body (c :: acc) rest]
    simp

/-- A rendered string literal parses back to the string. -/
theorem parseStr_encode (s : String) (rest : List Char) :
    parseStr (encodeStringL s ++ rest) = some (s, rest) := by
  have h : encodeStringL s ++ rest =
      '"' :: (s.toList.flatMap escapeCharL ++ '"' :: rest) := by
    simp [encodeStringL]
  rw [h, parseStr, parseStrAux_escRun]
  cases s
  rfl

/-- Skipping whitespace ignores a non-whitespace head. -/
theorem skipJws_cons_not {c : Char} (cs : List Char) (h : isJsonWs c = false) :
    skipJws (c :: cs) = c :: cs := by
  simp [skipJws, h]

/-- Skipping whitespace removes a leading space. -/
theorem skipJws_space (cs : List Char) : skipJws (' ' :: cs) = skipJws cs := by
  simp [skipJws, isJsonWs]

/-- A rendered string literal starts with a quote, so whitespace skipping
leaves it alone. -/
theorem skipJws_encodeStringL (s : String) (rest : List Char) :
    skipJws (encodeStringL s ++ rest) = encodeStringL s ++ rest := by
  rw [encodeStringL, List.cons_append]
  exact skipJws_cons_not _ (by decide)

/-- Rendered members start with the opening quote of the first key. -/
theorem encodeMembersL_cons (kv : String × String) (ms : List (String × String)) :
    ∃ X : List Char, encodeMembersL (kv :: ms) = '"' :: X := by
  cases ms with
  | nil =>
    exact ⟨kv.1.toList.flatMap escapeCharL ++ ['"'] ++ (':' :: ' ' :: encodeStringL kv.2),
      by simp [encodeMembersL, encodeMemberL, encodeStringL, List.append_assoc]⟩
  | cons kv2 ms2 =>
    exact ⟨kv.1.toList.flatMap escapeCharL ++ ['"'] ++ (':' :: ' ' :: encodeStringL kv.2)
        ++ ',' :: ' ' :: encodeMembersL (kv2 :: ms2),
      by simp [encodeMembersL, encodeMemberL, encodeStringL, List.append_assoc]⟩

/-- Whitespace skipping leaves a leading colon alone. -/
theorem skipJws_colon (cs : List Char) : skipJws (':' :: cs) = ':' :: cs :=
  skipJws_cons_not _ (by decide)

/-- Whitespace skipping leaves a leading comma alone. -/
theorem skipJws_comma (cs : List Char) : skipJws (',' :: cs) = ',' :: cs :=
  skipJws_cons_not _ (by decide)

/-- Whitespace skipping leaves a leading closing brace alone. -/
theorem skipJws_rbrace (cs : List Char) : skipJws (rbrace :: cs) = rbrace :: cs :=
  skipJws_cons_not _ (by decide)

/-- Whitespace skipping leaves rendered members alone. -/
theorem skipJws_encodeMembersL (kv : String × String) (ms : List (String × String))
    (tail : List Char) :
    skipJws (encodeMembersL (kv :: ms) ++ tail) = encodeMembersL (kv :: ms) ++ tail := by
  obtain ⟨X, hX⟩ := encodeMembersL_cons kv ms
  rw [hX, List.cons_append]
  exact skipJws_cons_not _ (by decide)

/-- The members list is at least as long as its own rendering. -/
theorem encodeMembersL_length (kv : String × String) :
    ∀ ms : List (String × String), ms.length ≤ (encodeMembersL (kv :: ms)).length := by
  intro ms
  induction ms generalizing kv with
  | nil => simp
  | cons kv2 ms ih =>
    calc (kv2 :: ms).length = ms.length + 1 := rfl
    _ ≤ (encodeMembersL (kv2 :: ms)).length + 1 := by
        have := ih kv2
        omega
    _ ≤ (encodeMembersL (kv :: kv2 :: ms)).length := by
        simp only [encodeMembersL, encodeMemberL, List.length_append, List.length_cons]
        omega

/-- Parsing the rendered members of a non-empty object consumes them all,
stopping at the closing brace. -/
theorem parseMembersAux_encode :
    ∀ (ms : List (String × String)) (kv : String × String)
      (acc : List (String × String)) (rest : List Char) (fuel : Nat),
      ms.length < fuel →
      parseMembersAux fuel acc (encodeMembersL (kv :: ms) ++ rbrace :: rest) =
        some (acc.reverse ++ kv :: ms, rest) := by
  intro ms
  induction ms with
  | nil =>
    intro kv acc rest fuel hf
    match fuel, hf with
    | fuel + 1, _ =>
      have e1 : encodeMembersL [kv] ++ rbrace :: rest =
          encodeStringL kv.1 ++ (':' :: ' ' :: (encodeStringL kv.2 ++ rbrace :: rest)) := by
        simp [encodeMembersL, encodeMemberL, List.append_assoc]
      rw [e1]
      simp only [parseMembersAux, parseStr_encode, skipJws_colon, skipJws_space,
        skipJws_encodeStringL, skipJws_rbrace]
      split
      · rename_i heq
        exact absurd (List.head_eq_of_cons_eq heq) (by decide)
      · rename_i c r4 heq
        obtain ⟨hc, hr⟩ := List.cons_eq_cons.1 heq
        subst hc
        subst hr
        rw [if_pos rfl]
        simp
      · rename_i heq
        exact absurd heq (by simp)
  | cons kv2 ms ih =>
    intro kv acc rest fuel hf
    match fuel, hf with
    | fuel + 1, hf =>
      have e1 : encodeMembersL (kv :: kv2 :: ms) ++ rbrace :: rest =
          encodeStringL kv.1 ++ (':' :: ' ' ::
            (encodeStringL kv.2 ++ ',' :: ' ' ::
              (encodeMembersL (kv2 :: ms) ++ rbrace :: rest))) := by
        simp [encodeMembersL, encodeMemberL, List.append_assoc]
      rw [e1]
      simp only [parseMembersAux, parseStr_encode, skipJws_colon, skipJws_space,
        skipJws_comma, skipJws_encodeStringL, skipJws_encodeMembersL]
      have hf2 : ms.length < fuel := by
        simp only [List.length_cons] at hf
        omega
      rw [ih kv2 ((kv.1, kv.2) :: acc) rest fuel hf2]
      simp

/-- Whitespace skipping leaves a leading opening brace alone. -/
theorem skipJws_lbrace (cs : List Char) : skipJws (lbrace :: cs) = lbrace :: cs :=
  skipJws_cons_not _ (by decide)

/-- Whitespace skipping leaves a leading quote alone. -/
theorem skipJws_quote (cs : List Char) : skipJws ('"' :: cs) = '"' :: cs :=
  skipJws_cons_not _ (by decide)

/-- The serialized object decodes to the original mapping. -/
theorem jsonLoadsObj_dumps (m : List (String × String)) :
    jsonLoadsObj (dumpsL m) = some m := by
  cases m with
  | nil => rfl
  | cons kv ms =>
    obtain ⟨X, hX⟩ := encodeMembersL_cons kv ms
    have hfuel : ms.length < ('"' :: (X ++ [rbrace])).length + 1 := by
      have h1 := encodeMembersL_length kv ms
      rw [hX] at h1
      simp only [List.length_cons, List.length_append] at h1 ⊢
      omega
    have hqr : ('"' = rbrace) = False := by simp [rbrace]
    have hlb : (lbrace = lbrace) = True := by simp
    rw [jsonLoadsObj, dumpsL, hX]
    simp only [List.cons_append, skipJws_lbrace, skipJws_quote, hqr, hlb, if_true,
      if_false]
    rw [← List.cons_append, ← hX,
      parseMembersAux_encode ms kv [] [] _ (by rw [hX]; simpa using hfuel)]
    simp [skipJws]

/-- `dropWhile` is the identity when the head does not satisfy `p`. -/
theorem dropWhile_head_false {p : Char → Bool} :
    ∀ {l : List Char}, (∀ c, l.head? = some c → p c = false) → l.dropWhile p = l
  | [], _ => rfl
  | x :: xs, h => by simp [List.dropWhile_cons, h x rfl]

/-- `dropWhile` skips over a prefix it satisfies entirely. -/
theorem dropWhile_append_sat {p : Char → Bool} (l1 l2 : List Char)
    (h : ∀ c ∈ l1, p c = true) : (l1 ++ l2).dropWhile p = l2.dropWhile p := by
  induction l1 with
  | nil => simp
  | cons x xs ih =>
    simp only [List.cons_append, List.dropWhile_cons, h x (List.mem_cons_self x xs)]
    exact ih (fun c hc => h c (List.mem_cons_of_mem x hc))

/-- Python `strip` is the identity when both ends are non-whitespace. -/
theorem pyStrip_eq_self {l : List Char}
    (h1 : ∀ c, l.head? = some c → isPySpace c = false)
    (h2 : ∀ c, l.getLast? = some c → isPySpace c = false) : pyStrip l = l := by
  rw [pyStrip, dropWhile_head_false h1, dropWhile_head_false, List.reverse_reverse]
  intro c hc
  apply h2
  rwa [List.head?_reverse] at hc

/-- Python `strip` of a serialized object with trailing whitespace yields
the bare serialization. -/
theorem pyStrip_dumps (m : List (String × String)) (tail : List Char)
    (ht : ∀ c ∈ tail, isPySpace c = true) :
    pyStrip (dumpsL m ++ tail) = dumpsL m := by
  have hfront : List.dropWhile isPySpace
      (lbrace :: (encodeMembersL m ++ [rbrace] ++ tail))
      = lbrace :: (encodeMembersL m ++ [rbrace] ++ tail) := by
    rw [List.dropWhile_cons]
    have h : isPySpace lbrace = false := by decide
    rw [h]
    simp
  rw [pyStrip, dumpsL, List.cons_append, hfront]
  have h1 : (lbrace :: (encodeMembersL m ++ [rbrace] ++ tail)).reverse
      = tail.reverse ++ (rbrace :: ((encodeMembersL m).reverse ++ [lbrace])) := by
    simp [List.reverse_cons, List.reverse_append, List.append_assoc]
  rw [h1, dropWhile_append_sat _ _ (fun c hc => ht c (by simpa using hc)),
    List.dropWhile_cons]
  have hrb : isPySpace rbrace = false := by decide
  rw [hrb]
  simp [List.reverse_append, List.append_assoc]

/-- The bare serialization decodes to the mapping (`_call_bedrock`'s
post-processing with no fences present). -/
theorem call_bedrock_decode_bare (m : List (String × String)) :
    call_bedrock_decode (dumpsL m) = some m := by
  rw [call_bedrock_decode]
  have hstrip : pyStrip (dumpsL m) = dumpsL m := by
    have := pyStrip_dumps m [] (by simp)
    simpa using this
  rw [hstrip]
  have hpre : fenceMarker.isPrefixOf (dumpsL m) = false := by
    rw [dumpsL, fenceMarker]
    simp [List.isPrefixOf, btick, lbrace]
  rw [hpre]
  simp [jsonLoadsObj_dumps]

/-- A serialization wrapped in a markdown fence (language tag allowed on
the opening line) decodes to the mapping: `_call_bedrock` drops the first
line, the trailing marker, and the leftover newline. -/
theorem call_bedrock_decode_fenced (m : List (String × String)) (lang : List Char)
    (hlang : ∀ c ∈ lang, (c == '\n') = false) :
    call_bedrock_decode
      (fenceMarker ++ lang ++ '\n' :: (dumpsL m ++ '\n' :: fenceMarker)) = some m := by
  have hbt : isPySpace btick = false := by decide
  have hform : fenceMarker ++ lang ++ '\n' :: (dumpsL m ++ '\n' :: fenceMarker)
      = (fenceMarker ++ lang ++ '\n' :: (dumpsL m ++ ['\n', btick, btick])) ++ [btick] := by
    simp [fenceMarker, List.append_assoc]
  have hstrip : pyStrip (fenceMarker ++ lang ++ '\n' :: (dumpsL m ++ '\n' :: fenceMarker))
      = fenceMarker ++ lang ++ '\n' :: (dumpsL m ++ '\n' :: fenceMarker) := by
    apply pyStrip_eq_self
    · intro c hc
      rw [fenceMarker] at hc
      simp only [List.cons_append, List.head?_cons, Option.some.injEq] at hc
      rw [← hc]
      exact hbt
    · intro c hc
      rw [hform, List.getLast?_concat, Option.some.injEq] at hc
      rw [← hc]
      exact hbt
  have hpre : fenceMarker.isPrefixOf
      (fenceMarker ++ lang ++ '\n' :: (dumpsL m ++ '\n' :: fenceMarker)) = true := by
    simp [fenceMarker, List.isPrefixOf, List.cons_append]
  have hcont : (fenceMarker ++ lang ++ '\n' :: (dumpsL m ++ '\n' :: fenceMarker)).contains
      '\n' = true := by
    apply List.elem_eq_true_of_mem
    simp
  have hafn : afterFirstNewline
      (fenceMarker ++ lang ++ '\n' :: (dumpsL m ++ '\n' :: fenceMarker))
      = dumpsL m ++ '\n' :: fenceMarker := by
    rw [afterFirstNewline]
    have hassoc : fenceMarker ++ lang ++ '\n' :: (dumpsL m ++ '\n' :: fenceMarker)
        = (fenceMarker ++ lang) ++ ('\n' :: (dumpsL m ++ '\n' :: fenceMarker)) := by
      simp [List.append_assoc]
    rw [hassoc, dropWhile_append_sat, List.dropWhile_cons]
    · norm_num
    · intro c hc
      rcases List.mem_append.1 hc with h | h
      · simp only [fenceMarker, List.mem_cons, List.not_mem_nil, or_false] at h
        rcases h with rfl | rfl | rfl <;> decide
      · have hne := hlang c h
        simp [bne, hne]
  have hsuf : fenceMarker.isSuffixOf (dumpsL m ++ '\n' :: fenceMarker) = true := by
    show (fenceMarker.reverse.isPrefixOf (dumpsL m ++ '\n' :: fenceMarker).reverse) = true
    simp [fenceMarker, List.reverse_append, List.isPrefixOf, List.cons_append]
  have htake : (dumpsL m ++ '\n' :: fenceMarker).take
      ((dumpsL m ++ '\n' :: fenceMarker).length - 3) = dumpsL m ++ ['\n'] := by
    have hform2 : dumpsL m ++ '\n' :: fenceMarker = (dumpsL m ++ ['\n']) ++ fenceMarker := by
      simp [List.append_assoc]
    rw [hform2]
    have hlen : ((dumpsL m ++ ['\n']) ++ fenceMarker).length - 3
        = (dumpsL m ++ ['\n']).length + 0 := by
      simp [fenceMarker]
    rw [hlen, List.take_append]
    simp
  have hstrip2 : pyStrip (dumpsL m ++ ['\n']) = dumpsL m :=
    pyStrip_dumps m ['\n'] (by intro c hc; simp at hc; rw [hc]; rfl)
  simp only [call_bedrock_decode]
  rw [hstrip, hpre, if_pos rfl, hcont, if_pos rfl, hafn, hsuf, if_pos rfl, htake,
    hstrip2]
  exact jsonLoadsObj_dumps m

/-- C7: decoding round-trip — for every mapping from team-id strings to
roast texts, if the response text is the JSON serialization of the
mapping, either bare or wrapped in a single fenced code block (a leading
line starting with the ``` marker and an optional language tag, plus a
trailing ``` marker), then the response parsing of `_call_bedrock`
returns exactly the mapping. -/
theorem response_decoding_roundtrip (m : List (String × String)) (lang : List Char)
    (hlang : ∀ c ∈ lang, (c == '\n') = false) :
    call_bedrock_decode (dumpsL m) = some m ∧
    call_bedrock_decode
      (fenceMarker ++ lang ++ '\n' :: (dumpsL m ++ '\n' :: fenceMarker)) = some m :=
  ⟨call_bedrock_decode_bare m, call_bedrock_decode_fenced m lang hlang⟩

/-- Witness for C7 at a concrete two-team mapping with a `json` fence tag. -/
theorem response_decoding_roundtrip_witness :
    call_bedrock_decode (dumpsL [("1", "roast one"), ("2", "ok")]) =
      some [("1", "roast one"), ("2", "ok")] ∧
    call_bedrock_decode
      (fenceMarker ++ "json".toList ++ '\n' ::
        (dumpsL [("1", "roast one"), ("2", "ok")] ++ '\n' :: fenceMarker)) =
      some [("1", "roast one"), ("2", "ok")] :=
  response_decoding_roundtrip [("1", "roast one"), ("2", "ok")] "json".toList
    (by decide)

end Roast
